import Mathlib

/-!
Shallow embedding of the print-shop backend (TypeScript/Express/Mongoose)
core business logic, together with theorems settling the specification
claims about pricing, order totals, order numbering, status transitions,
payments/refunds, fees, and file validation.

JavaScript numbers are modelled as rationals (ℚ); JavaScript object maps
as association lists; `undefined`-able values as `Option`; thrown
`ApiError`s as `Except` errors.  Each definition is translated from the
named source function.
-/

deriving instance DecidableEq for Except

namespace PrintShop

/-- JavaScript values that can appear in a selected-options map or a
request body field (booleans, numbers, strings). -/
inductive JsVal where
  | bool (b : Bool)
  | num (q : ℚ)
  | str (s : String)

deriving DecidableEq, Repr

/-- JavaScript truthiness of a value: `false`, `0` and `""` are falsy. -/
def JsVal.truthy : JsVal → Bool
  | .bool b => b
  | .num q => decide (q ≠ 0)
  | .str s => decide (s ≠ "")

/-- A JavaScript object used as a map from option identifiers to values,
modelled as an association list (keys unique in practice; lookup takes
the first binding, as property access does). -/
abbrev OptionsMap := List (String × JsVal)

/-- Property access `m[k]` on an options object: `some v` when the key is
present, `none` (i.e. `undefined`) otherwise. -/
def optLookup (m : OptionsMap) (k : String) : Option JsVal :=
  (m.find? (fun p => p.1 = k)).map (fun p => p.2)

/-- Truthiness of `selectedOptions[option.id]` as tested by
`calculatePrice` in `service.model.ts`: the key is present and its value
is truthy. -/
def optSelected (m : OptionsMap) (k : String) : Bool :=
  match optLookup m k with
  | some v => v.truthy
  | none => false

/-- One entry of a service's `options` array (service.model.ts schema):
an identifier, a display name and a price modifier. -/
structure ServiceOption where
  id : String
  name : String
  priceModifier : ℚ

deriving DecidableEq, Repr

/-- Catalog entry (service.model.ts schema), restricted to the fields
read by the order controller and the price calculation. -/
structure Service where
  id : String
  name : String
  basePrice : ℚ
  options : List ServiceOption
  minQuantity : ℚ
  maxQuantity : ℚ
  isActive : Bool

deriving DecidableEq, Repr

/-- Embedding of `serviceSchema.methods.calculatePrice`
(service.model.ts, lines 36–44): start from `basePrice * quantity` and,
for each option of the service whose id maps to a truthy value in
`selectedOptions`, add `priceModifier * quantity`. -/
def Service.calculatePrice (s : Service) (quantity : ℚ) (selectedOptions : OptionsMap) : ℚ :=
  s.options.foldl
    (fun total opt =>
      if optSelected selectedOptions opt.id then total + opt.priceModifier * quantity else total)
    (s.basePrice * quantity)

/-- Sum of the price modifiers of the options of `s` that are selected
(present with a truthy value) in `selectedOptions`. -/
def Service.selectedModifierSum (s : Service) (selectedOptions : OptionsMap) : ℚ :=
  ((s.options.filter (fun opt => optSelected selectedOptions opt.id)).map
    (fun opt => opt.priceModifier)).sum

/-- Order status enumeration (order.model.ts schema). -/
inductive OrderStatus where
  | draft
  | quote
  | pending
  | confirmed
  | inProduction
  | ready
  | shipped
  | delivered
  | cancelled

deriving DecidableEq, Repr

/-- One order line item (orderItemSchema in order.model.ts), with the
denormalized service snapshot. -/
structure OrderItem where
  serviceId : String
  service : Service
  quantity : ℚ
  options : OptionsMap
  unitPrice : ℚ
  totalPrice : ℚ
  files : List String
  notes : String

deriving DecidableEq, Repr

/-- Order document (orderSchema in order.model.ts), restricted to the
fields the controller and the model methods read or write.  `Date`
fields are modelled as `Option ℕ` timestamps (`none` = unset);
`orderNumber = ""` models an unset (falsy) order number. -/
structure Order where
  orderNumber : String
  clientId : String
  items : List OrderItem
  status : OrderStatus
  subtotal : ℚ
  taxAmount : ℚ
  discountAmount : ℚ
  shippingCost : ℚ
  totalPrice : ℚ
  notes : String
  internalNotes : String
  confirmedAt : Option ℕ
  productionStartedAt : Option ℕ
  readyAt : Option ℕ
  shippedAt : Option ℕ
  deliveredAt : Option ℕ
  estimatedDeliveryDate : Option ℕ
  priority : String
  assignedTo : Option String

deriving DecidableEq, Repr

/-- Embedding of `orderSchema.methods.calculateTotals` (order.model.ts,
lines 104–108): `subtotal` is the reduce-sum of the items' total prices,
`taxAmount = subtotal * 0.20`, and
`totalPrice = subtotal + taxAmount + shippingCost - discountAmount`. -/
def Order.calculateTotals (o : Order) : Order :=
  let subtotal := o.items.foldl (fun sum item => sum + item.totalPrice) 0
  let taxAmount := subtotal * (20 / 100 : ℚ)
  { o with
    subtotal := subtotal
    taxAmount := taxAmount
    totalPrice := subtotal + taxAmount + o.shippingCost - o.discountAmount }

/-- Decimal digit characters of `n`, least significant first, computed
with structural fuel (fuel `> n` suffices).  Models JavaScript's
`String(n)` / template interpolation for non-negative integers. -/
def natDigitsRevAux : ℕ → ℕ → List Char
  | 0, _ => []
  | fuel + 1, n =>
    if n < 10 then [Nat.digitChar n]
    else Nat.digitChar (n % 10) :: natDigitsRevAux fuel (n / 10)

/-- Decimal rendering of a natural number, as JavaScript string
conversion produces for non-negative integers. -/
def natToString (n : ℕ) : String :=
  String.mk (natDigitsRevAux (n + 1) n).reverse

/-- Embedding of JavaScript `String.prototype.padStart(targetLen, c)`:
pad on the left up to `targetLen` characters; a string already at least
that long is returned unchanged (never truncated). -/
def padStart (s : String) (targetLen : ℕ) (c : Char) : String :=
  if targetLen ≤ s.length then s
  else String.mk (List.replicate (targetLen - s.length) c) ++ s

/-- Embedding of `orderSchema.methods.generateOrderNumber`
(order.model.ts, lines 110–125).  `createdAts` are the creation
timestamps of the existing orders; the count query keeps those in
`[startOfDay, endOfDay)`; the number is
`PP{year}{month(2)}{day(2)}{sequence(4)}` with `sequence = count + 1`
zero-padded to at least 4 digits. -/
def generateOrderNumber (year month day : ℕ) (createdAts : List ℕ)
    (startOfDay endOfDay : ℕ) : String :=
  let count := (createdAts.filter (fun t => decide (startOfDay ≤ t ∧ t < endOfDay))).length
  let sequence := padStart (natToString (count + 1)) 4 '0'
  "PP" ++ natToString year ++ padStart (natToString month) 2 '0'
    ++ padStart (natToString day) 2 '0' ++ sequence

/-- Embedding of `Order.prototype.save` as driven by the two pre-save
hooks (order.model.ts, lines 90–101): a new document without an order
number first receives a generated one, then totals are recalculated. -/
def Order.save (isNew : Bool) (year month day : ℕ) (createdAts : List ℕ)
    (startOfDay endOfDay : ℕ) (o : Order) : Order :=
  let o1 :=
    if isNew = true ∧ o.orderNumber = "" then
      { o with orderNumber := generateOrderNumber year month day createdAts startOfDay endOfDay }
    else o
  o1.calculateTotals

/-- Saving an already-persisted document (`isNew = false`): only the
totals pre-save hook has an effect.  Used by `updateStatus` and
`updateOrder`, whose `save()` calls never regenerate the number. -/
def Order.saveExisting (o : Order) : Order :=
  o.calculateTotals

/-- Embedding of `orderSchema.methods.updateStatus` (order.model.ts,
lines 127–138): set the status, stamp the matching timestamp field with
the current time (unconditionally), then save. -/
def Order.updateStatus (o : Order) (newStatus : OrderStatus) (now : ℕ) : Order :=
  let o1 := { o with status := newStatus }
  let o2 :=
    match newStatus with
    | .confirmed => { o1 with confirmedAt := some now }
    | .inProduction => { o1 with productionStartedAt := some now }
    | .ready => { o1 with readyAt := some now }
    | .shipped => { o1 with shippedAt := some now }
    | .delivered => { o1 with deliveredAt := some now }
    | _ => o1
  o2.saveExisting

/-- Structured failures thrown via `ApiError` (utils/apiError) in the
controllers, with their message strings. -/
inductive ApiErr where
  | badRequest (msg : String)
  | forbidden (msg : String)
  | notFound (msg : String)

deriving DecidableEq, Repr

/-- The authenticated request user (`req.user`). -/
structure UserCtx where
  id : String
  role : String

deriving DecidableEq, Repr

/-- One entry of the `items` array of a create/update order request
body. -/
structure ReqItem where
  serviceId : String
  quantity : ℚ
  options : OptionsMap
  files : List String
  notes : String

deriving DecidableEq, Repr

/-- Message of the quantity-bounds rejection in `createOrder`
(order.controller.ts, lines 22–24). -/
def invalidQuantityMsg (s : Service) : String :=
  "Quantité invalide pour " ++ s.name ++ ". Min: " ++ toString s.minQuantity
    ++ ", Max: " ++ toString s.maxQuantity

/-- Message of the missing/inactive-service rejection in the order
controller. -/
def serviceNotFoundMsg (serviceId : String) : String :=
  "Service " ++ serviceId ++ " non trouvé ou inactif"

/-- Embedding of the per-item body of `createOrder`
(order.controller.ts, lines 14–40): resolve the service, reject a
missing or inactive service, reject a quantity outside
`[minQuantity, maxQuantity]`, then compute
`unitPrice = calculatePrice(1, options)` and
`totalPrice = unitPrice * quantity`. -/
def buildOrderItem (catalog : List Service) (item : ReqItem) : Except ApiErr OrderItem :=
  match catalog.find? (fun s => s.id = item.serviceId) with
  | none => .error (.badRequest (serviceNotFoundMsg item.serviceId))
  | some service =>
    if service.isActive = false then
      .error (.badRequest (serviceNotFoundMsg item.serviceId))
    else if item.quantity < service.minQuantity ∨ item.quantity > service.maxQuantity then
      .error (.badRequest (invalidQuantityMsg service))
    else
      let unitPrice := service.calculatePrice 1 item.options
      let totalPrice := unitPrice * item.quantity
      .ok { serviceId := item.serviceId, service := service, quantity := item.quantity,
            options := item.options, unitPrice := unitPrice, totalPrice := totalPrice,
            files := item.files, notes := item.notes }

/-- Embedding of `createOrder` (order.controller.ts, lines 8–59): build
all items (first failure propagates), assemble a draft order for the
requesting client, and persist it through `save` on a new document
(which assigns the order number and recalculates the totals). -/
def createOrder (catalog : List Service) (user : UserCtx) (items : List ReqItem)
    (notes : String) (priority : Option String) (year month day : ℕ) (createdAts : List ℕ)
    (startOfDay endOfDay : ℕ) : Except ApiErr Order := do
  let orderItems ← items.mapM (buildOrderItem catalog)
  let order : Order := {
    orderNumber := ""
    clientId := user.id
    items := orderItems
    status := .draft
    subtotal := 0
    taxAmount := 0
    discountAmount := 0
    shippingCost := 0
    totalPrice := 0
    notes := notes
    internalNotes := ""
    confirmedAt := none
    productionStartedAt := none
    readyAt := none
    shippedAt := none
    deliveredAt := none
    estimatedDeliveryDate := none
    priority := match priority with
      | some p => if p = "" then "normal" else p
      | none => "normal"
    assignedTo := none }
  pure (Order.save true year month day createdAts startOfDay endOfDay order)

/-- Embedding of the per-item recalculation inside `updateOrder`
(order.controller.ts, lines 160–179): identical to the creation path
except that no quantity-bounds check is performed. -/
def rebuildOrderItem (catalog : List Service) (item : ReqItem) : Except ApiErr OrderItem :=
  match catalog.find? (fun s => s.id = item.serviceId) with
  | none => .error (.badRequest (serviceNotFoundMsg item.serviceId))
  | some service =>
    if service.isActive = false then
      .error (.badRequest (serviceNotFoundMsg item.serviceId))
    else
      let unitPrice := service.calculatePrice 1 item.options
      let totalPrice := unitPrice * item.quantity
      .ok { serviceId := item.serviceId, service := service, quantity := item.quantity,
            options := item.options, unitPrice := unitPrice, totalPrice := totalPrice,
            files := item.files, notes := item.notes }

/-- Request body of `updateOrder`; absent fields are `none`.  A present
string field with value `""` is falsy in the controller's `if (field)`
guards. -/
structure UpdateBody where
  items : Option (List ReqItem)
  notes : Option String
  internalNotes : Option String
  status : Option OrderStatus
  priority : Option String
  assignedTo : Option String
  estimatedDeliveryDate : Option ℕ

deriving Repr

/-- The field-by-field tail of `updateOrder` (order.controller.ts,
lines 184–193): each present, truthy field is applied subject to the
role guards; a present `status` triggers `updateStatus` only for
non-client callers. -/
def updateOrderFields (user : UserCtx) (body : UpdateBody) (now : ℕ) (o : Order) : Order :=
  let o1 := match body.notes with
    | some s => if s ≠ "" then { o with notes := s } else o
    | none => o
  let o2 := match body.internalNotes with
    | some s => if s ≠ "" ∧ user.role ≠ "client" then { o1 with internalNotes := s } else o1
    | none => o1
  let o3 := match body.status with
    | some st => if user.role ≠ "client" then o2.updateStatus st now else o2
    | none => o2
  let o4 := match body.priority with
    | some p => if p ≠ "" ∧ user.role ≠ "client" then { o3 with priority := p } else o3
    | none => o3
  let o5 := match body.assignedTo with
    | some a => if a ≠ "" ∧ user.role ≠ "client" then { o4 with assignedTo := some a } else o4
    | none => o4
  match body.estimatedDeliveryDate with
    | some d => if user.role ≠ "client" then { o5 with estimatedDeliveryDate := some d } else o5
    | none => o5

/-- The item-recalculation step of `updateOrder` (order.controller.ts,
lines 157–182): replace the order's items with recomputed ones when a
present `items` field comes from the owning client on a draft order;
otherwise the items are silently left alone. -/
def updateOrderItemsStep (catalog : List Service) (user : UserCtx) (body : UpdateBody)
    (o : Order) : Except ApiErr Order :=
  match body.items with
  | some reqItems =>
    if user.role = "client" ∧ o.status = OrderStatus.draft then
      (reqItems.mapM (rebuildOrderItem catalog)).map
        (fun newItems => { o with items := newItems })
    else .ok o
  | none => .ok o

/-- Embedding of `updateOrder` (order.controller.ts, lines 136–200):
permission checks for clients (ownership, then draft-only), item
recalculation when a client edits a draft's items, the guarded field
updates, and the final save.  The two client-only rejections, nested
under one `if` in the source, are flattened into guard conjunctions. -/
def updateOrder (catalog : List Service) (user : UserCtx) (body : UpdateBody) (o : Order)
    (now : ℕ) : Except ApiErr Order :=
  if user.role = "client" ∧ o.clientId ≠ user.id then
    .error (.forbidden "Accès non autorisé à cette commande")
  else if user.role = "client" ∧ o.status ≠ OrderStatus.draft then
    .error (.forbidden "Impossible de modifier une commande confirmée")
  else
    (updateOrderItemsStep catalog user body o).map
      (fun o1 => (updateOrderFields user body now o1).saveExisting)

/-- Payment status enumeration (payment.model.ts schema). -/
inductive PayStatus where
  | pending
  | processing
  | completed
  | failed
  | cancelled
  | refunded

deriving DecidableEq, Repr

/-- Fee breakdown stored on a payment (payment.model.ts `fees`). -/
structure Fees where
  processingFee : ℚ
  platformFee : ℚ
  totalFees : ℚ

deriving DecidableEq, Repr

/-- One refund record (payment.model.ts `refunds` array entries). -/
structure Refund where
  amount : ℚ
  reason : String
  refundedAt : ℕ
  refundId : String

deriving DecidableEq, Repr

/-- Mobile-money transaction details (payment.model.ts
`mvolaTransaction`). -/
structure MvolaTx where
  transactionId : String
  phoneNumber : String
  reference : String
  txStatus : String

deriving DecidableEq, Repr

/-- Payment document (payment.model.ts schema), restricted to the
fields the payment controller reads or writes. -/
structure Payment where
  paymentNumber : String
  orderId : String
  clientId : String
  amount : ℚ
  method : String
  status : PayStatus
  fees : Fees
  refunds : List Refund
  mvolaTransaction : Option MvolaTx

deriving DecidableEq, Repr

/-- Embedding of `createPayment` (payment controller): resolve the
order, check ownership, compute the fee breakdown
(`processingFee = amount * 0.02` for mvola, `* 0.03` otherwise;
`platformFee = amount * 0.01`; `totalFees` their sum), create the
payment (status defaults to `pending`), and for the mvola method run
the external initiation (`mvolaResult = some (transactionId, status)`
on success, `none` when the provider call throws, in which case the
controller re-throws). -/
def createPayment (orderId : String) (order : Option Order) (clientId : String)
    (amount : ℚ) (method : String) (phoneNumber : String) (paymentNumber : String)
    (mvolaResult : Option (String × String)) : Except ApiErr Payment :=
  match order with
  | none => .error (.notFound "Commande non trouvée")
  | some o =>
    if o.clientId ≠ clientId then .error (.forbidden "Accès non autorisé à cette commande")
    else
      let processingFee := if method = "mvola" then amount * (2 / 100 : ℚ) else amount * (3 / 100 : ℚ)
      let platformFee := amount * (1 / 100 : ℚ)
      let totalFees := processingFee + platformFee
      let payment : Payment := {
        paymentNumber := paymentNumber
        orderId := orderId
        clientId := clientId
        amount := amount
        method := method
        status := .pending
        fees := { processingFee := processingFee, platformFee := platformFee, totalFees := totalFees }
        refunds := []
        mvolaTransaction := none }
      if method = "mvola" then
        match mvolaResult with
        | some r =>
          .ok { payment with
                mvolaTransaction := some {
                  transactionId := r.1
                  phoneNumber := phoneNumber
                  reference := paymentNumber
                  txStatus := r.2 }
                status := .processing }
        | none => .error (.badRequest "Erreur Mvola")
      else .ok payment

/-- Running total of a refund list, as the controller's
`refunds.reduce((sum, refund) => sum + refund.amount, 0)`. -/
def refundsTotal (refunds : List Refund) : ℚ :=
  refunds.foldl (fun sum refund => sum + refund.amount) 0

/-- The `refundAmount = amount || payment.amount` fallback of
`refundPayment`: a missing (`undefined`) or zero (falsy) requested
amount falls back to the full original payment amount. -/
def jsRefundAmount (p : Payment) (amount : Option ℚ) : ℚ :=
  match amount with
  | some a => if a = 0 then p.amount else a
  | none => p.amount

/-- The refund record pushed by `refundPayment`, with
`refundId = REF-{Date.now()}`. -/
def newRefund (refundAmount : ℚ) (reason : String) (now : ℕ) : Refund :=
  { amount := refundAmount
    reason := reason
    refundedAt := now
    refundId := "REF-" ++ natToString now }

/-- The successful tail of `refundPayment`: append the refund record,
recompute the running total, and flip the status to `refunded` once the
total reaches or exceeds the original amount. -/
def applyRefund (p : Payment) (refundAmount : ℚ) (reason : String) (now : ℕ) : Payment :=
  let refunds := p.refunds ++ [newRefund refundAmount reason now]
  let totalRefunded := refundsTotal refunds
  let newStatus := if totalRefunded ≥ p.amount then PayStatus.refunded else p.status
  { p with refunds := refunds, status := newStatus }

/-- Embedding of `refundPayment` (payment controller): admin-only;
payment must exist and be `completed`; the requested amount falls back
to the full amount when absent or zero; an individual refund larger
than the original amount is rejected; the mvola provider refund may
fail (`mvolaRefundOk = false`), aborting; otherwise the refund is
applied. -/
def refundPayment (role : String) (payment : Option Payment) (amount : Option ℚ)
    (reason : String) (mvolaRefundOk : Bool) (now : ℕ) : Except ApiErr Payment :=
  if role ≠ "admin" then
    .error (.forbidden "Seuls les administrateurs peuvent effectuer des remboursements")
  else
    match payment with
    | none => .error (.notFound "Paiement non trouvé")
    | some p =>
      if p.status ≠ PayStatus.completed then
        .error (.badRequest "Seuls les paiements complétés peuvent être remboursés")
      else
        let refundAmount := jsRefundAmount p amount
        if refundAmount > p.amount then
          .error (.badRequest "Le montant du remboursement ne peut pas dépasser le montant du paiement")
        else if p.method = "mvola" ∧ p.mvolaTransaction.isSome ∧ mvolaRefundOk = false then
          .error (.badRequest "Erreur remboursement Mvola")
        else
          .ok (applyRefund p refundAmount reason now)

/-- One entry of a validation result's `issues` array (file pipeline). -/
structure FileIssue where
  type : String
  message : String
  severity : String

deriving DecidableEq, Repr

/-- Result of `validateFile` (file pipeline). -/
structure ValidationResult where
  isValid : Bool
  issues : List FileIssue
  recommendations : List String

deriving DecidableEq, Repr

/-- Image metadata as returned by the image library for an image file;
`none` models an `undefined` property. -/
structure ImageMeta where
  density : Option ℚ
  width : Option ℚ
  height : Option ℚ
  space : String

deriving DecidableEq, Repr

def supportedImageFormats : List String :=
  [".jpg", ".jpeg", ".png", ".gif", ".bmp", ".tiff", ".tif"]

def supportedDocumentFormats : List String :=
  [".pdf", ".ai", ".eps", ".psd", ".indd"]

def supportedVectorFormats : List String :=
  [".svg", ".ai", ".eps"]

/-- The spread-concatenation of the three supported-format lists, as
built inside `validateFile`. -/
def allSupportedFormats : List String :=
  supportedImageFormats ++ supportedDocumentFormats ++ supportedVectorFormats

def pushIssue (r : ValidationResult) (i : FileIssue) : ValidationResult :=
  { r with issues := r.issues ++ [i] }

def pushRecommendation (r : ValidationResult) (s : String) : ValidationResult :=
  { r with recommendations := r.recommendations ++ [s] }

/-- File-size check of `validateFile`: files over 100MB get a medium
warning and a compression recommendation. -/
def sizeStep (fileSize : ℚ) (r : ValidationResult) : ValidationResult :=
  if fileSize > 100 * 1024 * 1024 then
    pushRecommendation
      (pushIssue r {
        type := "warning"
        message := "Fichier très volumineux (>100MB)"
        severity := "medium" })
      "Considérez compresser le fichier pour réduire sa taille"
  else r

/-- Image-specific checks of `validateFile`: low density (a truthy
density below 150 DPI) and tiny dimensions produce warnings; sRGB color
space produces a CMYK recommendation.  Non-image mimetypes skip all of
it. -/
def imageStep (mimetype : String) (meta : ImageMeta) (r : ValidationResult) :
    ValidationResult :=
  if mimetype.startsWith "image/" then
    let r1 :=
      match meta.density with
      | some d =>
        if d ≠ 0 ∧ d < 150 then
          pushRecommendation
            (pushIssue r {
              type := "warning"
              message := "Résolution faible: " ++ toString d ++ " DPI"
              severity := "high" })
            "Utilisez une résolution d\x27au moins 300 DPI pour l\x27impression"
        else r
      | none => r
    let r2 :=
      match meta.width, meta.height with
      | some w, some h =>
        if (w ≠ 0 ∧ h ≠ 0) ∧ (w < 300 ∨ h < 300) then
          pushIssue r1 {
            type := "warning"
            message := "Dimensions très petites"
            severity := "medium" }
        else r1
      | _, _ => r1
    if meta.space = "srgb" then
      pushRecommendation r2 "Convertissez en CMYK pour une impression optimale"
    else r2
  else r

/-- The error issue pushed for an unsupported extension. -/
def unsupportedFormatIssue (ext : String) : FileIssue :=
  { type := "error"
    message := "Format de fichier non supporté: " ++ ext
    severity := "high" }

/-- Supported-format check of `validateFile`: an extension outside the
concatenated supported lists pushes a hard `error` issue and clears
`isValid`. -/
def formatStep (ext : String) (r : ValidationResult) : ValidationResult :=
  if allSupportedFormats.contains ext = false then
    { pushIssue r (unsupportedFormatIssue ext) with isValid := false }
  else r

/-- Final recomputation of `validateFile`: `isValid` becomes the
absence of any `error`-type issue. -/
def finalizeValidity (r : ValidationResult) : ValidationResult :=
  let hasErrors := r.issues.any (fun issue => issue.type = "error")
  { r with isValid := !hasErrors }

/-- Embedding of `validateFile` (file pipeline service, non-throwing
path): the checks run in source order on an initially valid, empty
result.  `extname` is the file's extension after the source's
lowercasing (`path.extname(filePath).toLowerCase()`). -/
def validateFile (fileSize : ℚ) (mimetype : String) (meta : ImageMeta)
    (extname : String) : ValidationResult :=
  finalizeValidity
    (formatStep extname
      (imageStep mimetype meta
        (sizeStep fileSize { isValid := true, issues := [], recommendations := [] })))

/-! Concrete fixtures, mirroring the repository's own test data
(`order.test.ts`: Flyers A5, base price 50, bounds 100–10000). -/

def flyerService : Service :=
  { id := "svc1", name := "Flyers A5", basePrice := 50, options := [],
    minQuantity := 100, maxQuantity := 10000, isActive := true }

def sampleClient : UserCtx := { id := "c1", role := "client" }

def sampleDraftOrder : Order :=
  { orderNumber := "PP202501010001", clientId := "c1", items := [],
    status := .draft, subtotal := 0, taxAmount := 0, discountAmount := 0,
    shippingCost := 0, totalPrice := 0, notes := "", internalNotes := "",
    confirmedAt := none, productionStartedAt := none, readyAt := none,
    shippedAt := none, deliveredAt := none, estimatedDeliveryDate := none,
    priority := "normal", assignedTo := none }

def samplePayment : Payment :=
  { paymentNumber := "PAY-20250101-0001", orderId := "o1", clientId := "c1",
    amount := 100, method := "card", status := .completed,
    fees := { processingFee := 3, platformFee := 1, totalFees := 4 },
    refunds := [], mvolaTransaction := none }

def reqItem500 : ReqItem :=
  { serviceId := "svc1", quantity := 500, options := [], files := [], notes := "" }

def item500 : OrderItem :=
  { serviceId := "svc1", service := flyerService, quantity := 500, options := [],
    unitPrice := 50, totalPrice := 25000, files := [], notes := "" }

/-- C4 as amended: every transition into
confirmed/in_production/ready/shipped/delivered stamps the matching
timestamp field with the transition time, unconditionally — the latest
transition wins and overwrites any earlier stamp; the other timestamp
fields are untouched. -/
def lowQuantityItem : ReqItem :=
  { serviceId := "svc1", quantity := 50, options := [], files := [], notes := "" }

def lowQuantityBody : UpdateBody :=
  { items := some [lowQuantityItem], notes := none, internalNotes := none,
    status := none, priority := none, assignedTo := none, estimatedDeliveryDate := none }

def statusOnlyBody : UpdateBody :=
  { items := none, notes := none, internalNotes := none,
    status := some .confirmed, priority := none, assignedTo := none,
    estimatedDeliveryDate := none }

def pendingOrder : Order := { sampleDraftOrder with status := .pending }

def samplePaymentRefunded60 : Payment :=
  { samplePayment with
    refunds := [{ amount := 60, reason := "damaged batch", refundedAt := 1,
                  refundId := "REF-1" }] }

def samplePaymentOverRefunded : Payment :=
  { samplePayment with
    refunds := [{ amount := 60, reason := "damaged batch", refundedAt := 1,
                  refundId := "REF-1" },
                { amount := 60, reason := "reprint refund", refundedAt := 2,
                  refundId := "REF-2" }],
    status := .refunded }

def samplePayment25000 : Payment :=
  { paymentNumber := "PAY-1", orderId := "o1", clientId := "c1", amount := 25000,
    method := "card", status := .pending,
    fees := { processingFee := 750, platformFee := 250, totalFees := 1000 },
    refunds := [], mvolaTransaction := none }

def noImageMeta : ImageMeta :=
  { density := none, width := none, height := none, space := "" }

lemma calculatePrice_foldl (opts : List ServiceOption) (selectedOptions : OptionsMap)
    (quantity init : ℚ) :
    opts.foldl
      (fun total opt =>
        if optSelected selectedOptions opt.id then total + opt.priceModifier * quantity else total)
      init
    = init + ((opts.filter (fun opt => optSelected selectedOptions opt.id)).map
        (fun opt => opt.priceModifier)).sum * quantity := by
  induction opts generalizing init with
  | nil => simp
  | cons o rest ih =>
    by_cases h : optSelected selectedOptions o.id
    · simp [List.foldl_cons, List.filter_cons, h, ih]
      ring
    · simp [List.foldl_cons, List.filter_cons, h, ih]

/-- The price calculation equals `(basePrice + selected modifiers) * quantity`. -/
lemma calculatePrice_eq (s : Service) (quantity : ℚ) (selectedOptions : OptionsMap) :
    s.calculatePrice quantity selectedOptions
      = (s.basePrice + s.selectedModifierSum selectedOptions) * quantity := by
  unfold Service.calculatePrice Service.selectedModifierSum
  rw [calculatePrice_foldl]
  ring

lemma optSelected_cons_ne (m : OptionsMap) (id k : String) (v : JsVal) (h : id ≠ k) :
    optSelected ((id, v) :: m) k = optSelected m k := by
  simp [optSelected, optLookup, List.find?_cons, h]

/-- Options whose id does not occur on the service never influence the
price: extending the selection with an unknown id changes nothing. -/
lemma calculatePrice_unknown_id (s : Service) (quantity : ℚ) (selectedOptions : OptionsMap)
    (id : String) (v : JsVal) (hid : id ∉ s.options.map ServiceOption.id) :
    s.calculatePrice quantity ((id, v) :: selectedOptions)
      = s.calculatePrice quantity selectedOptions := by
  rw [calculatePrice_eq, calculatePrice_eq]
  have hsum : s.selectedModifierSum ((id, v) :: selectedOptions)
      = s.selectedModifierSum selectedOptions := by
    unfold Service.selectedModifierSum
    have hfil : s.options.filter (fun opt => optSelected ((id, v) :: selectedOptions) opt.id)
        = s.options.filter (fun opt => optSelected selectedOptions opt.id) := by
      apply List.filter_congr
      intro opt hopt
      have hne : id ≠ opt.id := by
        intro h
        exact hid (h ▸ List.mem_map_of_mem ServiceOption.id hopt)
      rw [optSelected_cons_ne _ _ _ _ hne]
    rw [hfil]
  rw [hsum]

lemma foldl_add_totalPrice (items : List OrderItem) (init : ℚ) :
    items.foldl (fun sum item => sum + item.totalPrice) init
      = init + (items.map OrderItem.totalPrice).sum := by
  induction items generalizing init with
  | nil => simp
  | cons i rest ih => simp [List.foldl_cons, ih]; ring

lemma natDigitsRevAux_length_le :
    ∀ (fuel k n : ℕ), 1 ≤ k → n < 10 ^ k → n < fuel →
      (natDigitsRevAux fuel n).length ≤ k := by
  intro fuel
  induction fuel with
  | zero => intro k n _ _ h; omega
  | succ fuel ih =>
    intro k n hk hpow hfuel
    unfold natDigitsRevAux
    by_cases h10 : n < 10
    · simp [h10]; omega
    · simp only [h10, if_false, List.length_cons]
      have hk2 : 2 ≤ k := by
        by_contra hlt
        have hk1 : k = 1 := by omega
        subst hk1
        simp at hpow
        omega
      have hdiv_pow : n / 10 < 10 ^ (k - 1) := by
        rw [Nat.div_lt_iff_lt_mul (by norm_num)]
        calc n < 10 ^ k := hpow
          _ = 10 ^ (k - 1) * 10 := by
            rw [← pow_succ]
            congr 1
            omega
      have hdiv_fuel : n / 10 < fuel := by
        have h1 : n / 10 < n := Nat.div_lt_self (by omega) (by norm_num)
        omega
      have := ih (k - 1) (n / 10) (by omega) hdiv_pow hdiv_fuel
      omega

lemma natDigitsRevAux_length_ge :
    ∀ (fuel k n : ℕ), 10 ^ k ≤ n → n < fuel →
      k + 1 ≤ (natDigitsRevAux fuel n).length := by
  intro fuel
  induction fuel with
  | zero => intro k n _ h; omega
  | succ fuel ih =>
    intro k n hpow hfuel
    unfold natDigitsRevAux
    by_cases h10 : n < 10
    · simp only [h10, if_true, List.length_singleton]
      have hk0 : k = 0 := by
        by_contra hk
        have h1 : (10 : ℕ) ≤ 10 ^ k := by
          calc (10 : ℕ) = 10 ^ 1 := (pow_one 10).symm
            _ ≤ 10 ^ k := Nat.pow_le_pow_right (by norm_num) (by omega)
        omega
      omega
    · simp only [h10, if_false, List.length_cons]
      cases k with
      | zero => omega
      | succ j =>
        have hdiv_pow : 10 ^ j ≤ n / 10 := by
          rw [Nat.le_div_iff_mul_le (by norm_num)]
          calc 10 ^ j * 10 = 10 ^ (j + 1) := (pow_succ 10 j).symm
            _ ≤ n := hpow
        have hdiv_fuel : n / 10 < fuel := by
          have h1 : n / 10 < n := Nat.div_lt_self (by omega) (by norm_num)
          omega
        have := ih j (n / 10) hdiv_pow hdiv_fuel
        omega

lemma natToString_length (n : ℕ) :
    (natToString n).length = (natDigitsRevAux (n + 1) n).length := by
  simp [natToString, String.length]

/-- A natural number with `10^k ≤ n < 10^(k+1)` renders as exactly
`k + 1` decimal digits. -/
lemma natToString_length_eq (n k : ℕ) (h1 : 10 ^ k ≤ n) (h2 : n < 10 ^ (k + 1)) :
    (natToString n).length = k + 1 := by
  rw [natToString_length]
  have hle := natDigitsRevAux_length_le (n + 1) (k + 1) n (by omega) h2 (by omega)
  have hge := natDigitsRevAux_length_ge (n + 1) k n h1 (by omega)
  omega

lemma natToString_length_le (n k : ℕ) (hk : 1 ≤ k) (h : n < 10 ^ k) :
    (natToString n).length ≤ k := by
  rw [natToString_length]
  exact natDigitsRevAux_length_le (n + 1) k n hk h (by omega)

lemma length_mk (l : List Char) : (String.mk l).length = l.length := rfl

lemma padStart_length (s : String) (n : ℕ) (c : Char) :
    (padStart s n c).length = max n s.length := by
  unfold padStart
  by_cases h : n ≤ s.length
  · simp [h, Nat.max_eq_right h]
  · simp only [h, if_false]
    rw [String.length_append, length_mk, List.length_replicate]
    omega

lemma refundsTotal_foldl (refunds : List Refund) (init : ℚ) :
    refunds.foldl (fun sum refund => sum + refund.amount) init
      = init + (refunds.map Refund.amount).sum := by
  induction refunds generalizing init with
  | nil => simp
  | cons r rest ih => simp [List.foldl_cons, ih]; ring

lemma refundsTotal_append (refunds : List Refund) (r : Refund) :
    refundsTotal (refunds ++ [r]) = refundsTotal refunds + r.amount := by
  unfold refundsTotal
  rw [refundsTotal_foldl, refundsTotal_foldl]
  simp

/-- Characterization of a successful `buildOrderItem`: the service was
found and active, the quantity was within bounds, and the item carries
the computed prices. -/
lemma buildOrderItem_eq_ok (catalog : List Service) (item : ReqItem) (oi : OrderItem)
    (h : buildOrderItem catalog item = .ok oi) :
    ∃ service, catalog.find? (fun s => s.id = item.serviceId) = some service
      ∧ service.isActive = true
      ∧ ¬(item.quantity < service.minQuantity ∨ item.quantity > service.maxQuantity)
      ∧ oi = { serviceId := item.serviceId, service := service, quantity := item.quantity,
               options := item.options,
               unitPrice := service.calculatePrice 1 item.options,
               totalPrice := service.calculatePrice 1 item.options * item.quantity,
               files := item.files, notes := item.notes } := by
  unfold buildOrderItem at h
  cases hfind : catalog.find? (fun s => s.id = item.serviceId) with
  | none => rw [hfind] at h; simp at h
  | some service =>
    rw [hfind] at h
    dsimp only at h
    by_cases hact : service.isActive = false
    · simp [hact] at h
    · rw [if_neg hact] at h
      by_cases hq : item.quantity < service.minQuantity ∨ item.quantity > service.maxQuantity
      · simp [hq] at h
      · rw [if_neg hq] at h
        refine ⟨service, rfl, by simpa using hact, hq, ?_⟩
        simpa using h.symm

/-- Forward characterization of `buildOrderItem` on the success path. -/
lemma buildOrderItem_ok_of (catalog : List Service) (item : ReqItem) (service : Service)
    (hfind : catalog.find? (fun s => s.id = item.serviceId) = some service)
    (hact : service.isActive = true)
    (hq : ¬(item.quantity < service.minQuantity ∨ item.quantity > service.maxQuantity)) :
    buildOrderItem catalog item
      = .ok { serviceId := item.serviceId, service := service, quantity := item.quantity,
              options := item.options,
              unitPrice := service.calculatePrice 1 item.options,
              totalPrice := service.calculatePrice 1 item.options * item.quantity,
              files := item.files, notes := item.notes } := by
  unfold buildOrderItem
  rw [hfind]
  dsimp only
  rw [if_neg (by simp [hact]), if_neg hq]

/-- Characterization of a successful `rebuildOrderItem` (the update
path): same as creation, but with no quantity condition at all. -/
lemma rebuildOrderItem_eq_ok (catalog : List Service) (item : ReqItem) (service : Service)
    (hfind : catalog.find? (fun s => s.id = item.serviceId) = some service)
    (hact : service.isActive = true) :
    rebuildOrderItem catalog item
      = .ok { serviceId := item.serviceId, service := service, quantity := item.quantity,
              options := item.options,
              unitPrice := service.calculatePrice 1 item.options,
              totalPrice := service.calculatePrice 1 item.options * item.quantity,
              files := item.files, notes := item.notes } := by
  unfold rebuildOrderItem
  rw [hfind]
  dsimp only
  rw [if_neg (by simp [hact])]

/-- C1: for every service, quantity and selected-options map, the unit
price computed by the order controller equals the service's base price
plus the sum of the price modifiers of the selected options that exist
on the service, the line's total price is that unit price times the
quantity, and selected option identifiers not present on the service
contribute nothing and cause no error. -/
theorem claim1_pricing (service : Service) (quantity : ℚ) (selectedOptions : OptionsMap) :
    service.calculatePrice 1 selectedOptions
        = service.basePrice + service.selectedModifierSum selectedOptions
    ∧ service.calculatePrice quantity selectedOptions
        = service.calculatePrice 1 selectedOptions * quantity
    ∧ (∀ id v, id ∉ service.options.map ServiceOption.id →
        service.calculatePrice quantity ((id, v) :: selectedOptions)
          = service.calculatePrice quantity selectedOptions)
    ∧ (∀ (catalog : List Service) (item : ReqItem) (oi : OrderItem),
        buildOrderItem catalog item = .ok oi →
          oi.unitPrice = oi.service.basePrice + oi.service.selectedModifierSum item.options
          ∧ oi.totalPrice = oi.unitPrice * item.quantity
          ∧ ∀ id v, id ∉ oi.service.options.map ServiceOption.id →
              buildOrderItem catalog { item with options := (id, v) :: item.options }
                = .ok { oi with options := (id, v) :: item.options }) := by
  refine ⟨?_, ?_, ?_, ?_⟩
  · rw [calculatePrice_eq]; ring
  · rw [calculatePrice_eq, calculatePrice_eq]; ring
  · intro id v hid
    exact calculatePrice_unknown_id service quantity selectedOptions id v hid
  · intro catalog item oi h
    obtain ⟨sv, hfind, hact, hq, hoi⟩ := buildOrderItem_eq_ok catalog item oi h
    subst hoi
    refine ⟨?_, rfl, ?_⟩
    · dsimp only
      rw [calculatePrice_eq]; ring
    · intro id v hid
      dsimp only at hid
      unfold buildOrderItem
      have hfind2 : catalog.find?
          (fun s => s.id = ({ item with options := (id, v) :: item.options } : ReqItem).serviceId)
          = some sv := hfind
      rw [hfind2]
      dsimp only
      rw [if_neg (by simp [hact]), if_neg hq]
      rw [calculatePrice_unknown_id sv 1 item.options id v hid]

/-- Witness for C1 at the repository's own test scenario: Flyers A5,
base price 50, 500 units, no options. -/
theorem claim1_pricing_witness :
    flyerService.calculatePrice 1 []
        = flyerService.basePrice + flyerService.selectedModifierSum []
    ∧ buildOrderItem [flyerService] reqItem500 = .ok item500
    ∧ item500.unitPrice
        = item500.service.basePrice + item500.service.selectedModifierSum reqItem500.options
    ∧ item500.totalPrice = item500.unitPrice * reqItem500.quantity := by
  have h := claim1_pricing flyerService 500 []
  have hb : buildOrderItem [flyerService] reqItem500 = .ok item500 := by
    rw [buildOrderItem_ok_of [flyerService] reqItem500 flyerService (by decide) (by decide)
      (by norm_num [reqItem500, flyerService])]
    simp [item500, reqItem500, flyerService, Service.calculatePrice]
    norm_num
  have h4 := h.2.2.2 [flyerService] reqItem500 item500 hb
  exact ⟨h.1, hb, h4.1, h4.2.1⟩

/-- C2: after every save, the subtotal is the sum of the line items'
total prices, the tax is 20% of the subtotal, and the total equals
subtotal plus tax minus discount plus shipping — the stored totals are
recomputed by the pre-save hook and never stale. -/
theorem claim2_totals (isNew : Bool) (year month day : ℕ) (createdAts : List ℕ)
    (startOfDay endOfDay : ℕ) (o : Order) :
    let saved := Order.save isNew year month day createdAts startOfDay endOfDay o
    saved.subtotal = (saved.items.map OrderItem.totalPrice).sum
    ∧ saved.taxAmount = saved.subtotal * (20 / 100 : ℚ)
    ∧ saved.totalPrice
        = saved.subtotal + saved.taxAmount - saved.discountAmount + saved.shippingCost := by
  dsimp only
  unfold Order.save Order.calculateTotals
  dsimp only
  refine ⟨?_, rfl, by ring⟩
  rw [foldl_add_totalPrice]
  simp

/-- Counterexample to C4: transitioning to `confirmed` a second time
overwrites the first recorded timestamp (5 becomes 9) instead of
leaving it unchanged. -/
theorem claim4_timestamp_counterexample :
    ((sampleDraftOrder.updateStatus .confirmed 5).updateStatus .confirmed 9).confirmedAt = some 9
    ∧ (sampleDraftOrder.updateStatus .confirmed 5).confirmedAt = some 5 := by
  exact ⟨rfl, rfl⟩

lemma saveExisting_status (o : Order) : o.saveExisting.status = o.status := rfl

lemma saveExisting_items (o : Order) : o.saveExisting.items = o.items := rfl

/-- When the caller is a client, the guarded field updates never touch
the order's status (the `status` branch requires a non-client role). -/
lemma updateOrderFields_status_client (user : UserCtx) (body : UpdateBody) (now : ℕ)
    (o : Order) (h : user.role = "client") :
    (updateOrderFields user body now o).status = o.status := by
  unfold updateOrderFields
  cases body.notes <;> cases body.internalNotes <;> cases body.status <;>
    cases body.priority <;> cases body.assignedTo <;> cases body.estimatedDeliveryDate <;>
      simp [h, apply_ite Order.status]

/-- A successful item step only replaces the items. -/
lemma updateOrderItemsStep_ok_status (catalog : List Service) (user : UserCtx)
    (body : UpdateBody) (o o1 : Order)
    (h : updateOrderItemsStep catalog user body o = .ok o1) :
    o1.status = o.status := by
  unfold updateOrderItemsStep at h
  cases hitems : body.items with
  | none => rw [hitems] at h; simp at h; rw [← h]
  | some reqItems =>
    rw [hitems] at h
    dsimp only at h
    by_cases hg : user.role = "client" ∧ o.status = OrderStatus.draft
    · rw [if_pos hg] at h
      cases hm : reqItems.mapM (rebuildOrderItem catalog) with
      | error e => rw [hm] at h; simp [Except.map] at h
      | ok newItems =>
        rw [hm] at h
        simp [Except.map] at h
        rw [← h]
    · rw [if_neg hg] at h
      simp at h
      rw [← h]

theorem claim4_timestamp_amended (o : Order) (t : ℕ) :
    (o.updateStatus .confirmed t).confirmedAt = some t
    ∧ (o.updateStatus .inProduction t).productionStartedAt = some t
    ∧ (o.updateStatus .ready t).readyAt = some t
    ∧ (o.updateStatus .shipped t).shippedAt = some t
    ∧ (o.updateStatus .delivered t).deliveredAt = some t
    ∧ (o.updateStatus .confirmed t).status = .confirmed
    ∧ (o.updateStatus .confirmed t).productionStartedAt = o.productionStartedAt
    ∧ (o.updateStatus .confirmed t).readyAt = o.readyAt
    ∧ (o.updateStatus .confirmed t).shippedAt = o.shippedAt
    ∧ (o.updateStatus .confirmed t).deliveredAt = o.deliveredAt := by
  exact ⟨rfl, rfl, rfl, rfl, rfl, rfl, rfl, rfl, rfl, rfl⟩

/-- Counterexample to C5: an `updateOrder` line-item edit with quantity
50 against a service whose minimum is 100 succeeds and computes a price
(2500), instead of being rejected before price computation. -/
theorem claim5_quantity_counterexample :
    (updateOrder [flyerService] sampleClient lowQuantityBody sampleDraftOrder 0).map
        (fun o => o.items.map (fun i => (i.quantity, i.totalPrice)))
      = .ok [((50 : ℚ), (2500 : ℚ))]
    ∧ (50 : ℚ) < flyerService.minQuantity := by
  constructor
  · unfold updateOrder
    rw [if_neg (by decide), if_neg (by decide)]
    unfold updateOrderItemsStep lowQuantityBody
    dsimp only
    rw [if_pos (by decide)]
    rw [show [lowQuantityItem].mapM (rebuildOrderItem [flyerService])
        = (rebuildOrderItem [flyerService] lowQuantityItem).map (fun i => [i]) from by
      cases h : rebuildOrderItem [flyerService] lowQuantityItem <;>
        simp [List.mapM, List.mapM.loop, h, Except.map]]
    rw [rebuildOrderItem_eq_ok [flyerService] lowQuantityItem flyerService
      (by decide) (by decide)]
    simp [Except.map, updateOrderFields, Order.saveExisting, Order.calculateTotals,
      Service.calculatePrice, lowQuantityItem, flyerService]
    norm_num
  · norm_num [flyerService]

/-- C5 as amended: on order creation an out-of-bounds quantity is
rejected with the invalid-quantity error before any price computation,
but on the update path no quantity bound is checked at all — the item
is rebuilt and its price computed regardless. -/
theorem claim5_quantity_amended (catalog : List Service) (item : ReqItem) (service : Service)
    (hfind : catalog.find? (fun s => s.id = item.serviceId) = some service)
    (hact : service.isActive = true)
    (hout : item.quantity < service.minQuantity ∨ item.quantity > service.maxQuantity) :
    buildOrderItem catalog item = .error (.badRequest (invalidQuantityMsg service))
    ∧ rebuildOrderItem catalog item
        = .ok { serviceId := item.serviceId, service := service, quantity := item.quantity,
                options := item.options,
                unitPrice := service.calculatePrice 1 item.options,
                totalPrice := service.calculatePrice 1 item.options * item.quantity,
                files := item.files, notes := item.notes } := by
  constructor
  · unfold buildOrderItem
    rw [hfind]
    dsimp only
    rw [if_neg (by simp [hact]), if_pos hout]
  · exact rebuildOrderItem_eq_ok catalog item service hfind hact

/-- Witness for C5 as amended, at quantity 50 against bounds
[100, 10000]. -/
theorem claim5_quantity_amended_witness :
    buildOrderItem [flyerService] lowQuantityItem
        = .error (.badRequest (invalidQuantityMsg flyerService))
    ∧ rebuildOrderItem [flyerService] lowQuantityItem
        = .ok { serviceId := lowQuantityItem.serviceId, service := flyerService,
                quantity := lowQuantityItem.quantity, options := lowQuantityItem.options,
                unitPrice := flyerService.calculatePrice 1 lowQuantityItem.options,
                totalPrice := flyerService.calculatePrice 1 lowQuantityItem.options
                  * lowQuantityItem.quantity,
                files := lowQuantityItem.files, notes := lowQuantityItem.notes } :=
  claim5_quantity_amended [flyerService] lowQuantityItem flyerService
    (by decide) (by decide) (by decide)

/-- Counterexample to C6: a client's update of a non-draft order that
includes a status value is rejected with Forbidden — it does not
return success. -/
theorem claim6_status_counterexample :
    updateOrder [] sampleClient statusOnlyBody pendingOrder 0
      = .error (.forbidden "Impossible de modifier une commande confirmée") := by
  unfold updateOrder
  rw [if_neg (by decide), if_pos (by decide)]

/-- C6 as amended: a client update on a non-draft order is rejected
with Forbidden (regardless of which fields are present); on any order,
a client update that succeeds never changes the status — a status value
in the body is silently ignored for clients. -/
theorem claim6_status_amended (catalog : List Service) (user : UserCtx) (body : UpdateBody)
    (o : Order) (now : ℕ) (hrole : user.role = "client") (hown : o.clientId = user.id) :
    (o.status ≠ OrderStatus.draft →
      updateOrder catalog user body o now
        = .error (.forbidden "Impossible de modifier une commande confirmée"))
    ∧ (∀ o', updateOrder catalog user body o now = .ok o' → o'.status = o.status) := by
  constructor
  · intro hst
    unfold updateOrder
    rw [if_neg (by simp [hown]), if_pos ⟨hrole, hst⟩]
  · intro o' h
    unfold updateOrder at h
    by_cases h1 : user.role = "client" ∧ o.clientId ≠ user.id
    · rw [if_pos h1] at h; cases h
    · rw [if_neg h1] at h
      by_cases h2 : user.role = "client" ∧ o.status ≠ OrderStatus.draft
      · rw [if_pos h2] at h; cases h
      · rw [if_neg h2] at h
        cases hstep : updateOrderItemsStep catalog user body o with
        | error e => rw [hstep] at h; simp [Except.map] at h
        | ok o1 =>
          rw [hstep] at h
          simp [Except.map] at h
          rw [← h, saveExisting_status, updateOrderFields_status_client _ _ _ _ hrole,
            updateOrderItemsStep_ok_status catalog user body o o1 hstep]

/-- Witness for C6 as amended: the owning client on a pending order is
rejected; the same client on a draft order cannot change the status. -/
theorem claim6_status_amended_witness :
    (pendingOrder.status ≠ OrderStatus.draft →
      updateOrder [] sampleClient statusOnlyBody pendingOrder 0
        = .error (.forbidden "Impossible de modifier une commande confirmée"))
    ∧ (∀ o', updateOrder [] sampleClient statusOnlyBody pendingOrder 0 = .ok o' →
        o'.status = pendingOrder.status) :=
  claim6_status_amended [] sampleClient statusOnlyBody pendingOrder 0 (by decide) (by decide)

/-- Success-path characterization of `refundPayment` for an admin. -/
lemma refundPayment_ok (p : Payment) (amount : Option ℚ) (reason : String) (ok : Bool)
    (now : ℕ) (hst : p.status = PayStatus.completed)
    (hamt : ¬(jsRefundAmount p amount > p.amount))
    (hmv : ¬(p.method = "mvola" ∧ p.mvolaTransaction.isSome ∧ ok = false)) :
    refundPayment "admin" (some p) amount reason ok now
      = .ok (applyRefund p (jsRefundAmount p amount) reason now) := by
  unfold refundPayment
  rw [if_neg (by decide)]
  dsimp only
  rw [if_neg (by simp [hst]), if_neg hamt, if_neg hmv]

lemma refund_sample_step1 :
    refundPayment "admin" (some samplePayment) (some 60) "damaged batch" true 1
      = .ok samplePaymentRefunded60 := by
  rw [refundPayment_ok samplePayment (some 60) "damaged batch" true 1
    (by decide) (by decide) (by decide)]
  simp only [Except.ok.injEq]
  unfold applyRefund jsRefundAmount refundsTotal newRefund
  simp [samplePayment, samplePaymentRefunded60, natToString, natDigitsRevAux, Nat.digitChar]
  norm_num

lemma refund_sample_step2 :
    refundPayment "admin" (some samplePaymentRefunded60) (some 60) "reprint refund" true 2
      = .ok samplePaymentOverRefunded := by
  rw [refundPayment_ok samplePaymentRefunded60 (some 60) "reprint refund" true 2
    (by decide) (by decide) (by decide)]
  simp only [Except.ok.injEq]
  unfold applyRefund jsRefundAmount refundsTotal newRefund
  simp [samplePayment, samplePaymentRefunded60, samplePaymentOverRefunded,
    natToString, natDigitsRevAux, Nat.digitChar]
  norm_num

/-- Counterexample to C3: on a completed 100-unit payment two accepted
refunds of 60 each are both admitted (each is checked only against the
full original amount), leaving a recorded refund total of 120 > 100. -/
theorem claim3_refund_counterexample :
    refundPayment "admin" (some samplePayment) (some 60) "damaged batch" true 1
        = .ok samplePaymentRefunded60
    ∧ refundPayment "admin" (some samplePaymentRefunded60) (some 60) "reprint refund" true 2
        = .ok samplePaymentOverRefunded
    ∧ refundsTotal samplePaymentOverRefunded.refunds = 120
    ∧ samplePaymentOverRefunded.amount = 100
    ∧ ¬(refundsTotal samplePaymentOverRefunded.refunds ≤ samplePaymentOverRefunded.amount) := by
  refine ⟨refund_sample_step1, refund_sample_step2, ?_, rfl, ?_⟩
  · unfold refundsTotal samplePaymentOverRefunded samplePayment
    norm_num
  · unfold refundsTotal samplePaymentOverRefunded samplePayment
    norm_num

/-- C3 as amended: each accepted refund requires a completed payment
and its own amount never exceeds the original payment amount; the
status becomes `refunded` exactly when the cumulative refund total
reaches or exceeds the original amount — but the cumulative total
itself may exceed the original amount across several refunds. -/
theorem claim3_refund_amended (role : String) (p : Payment) (amount : Option ℚ)
    (reason : String) (ok : Bool) (now : ℕ) (p' : Payment)
    (h : refundPayment role (some p) amount reason ok now = .ok p') :
    p.status = PayStatus.completed
    ∧ jsRefundAmount p amount ≤ p.amount
    ∧ p'.refunds = p.refunds ++ [newRefund (jsRefundAmount p amount) reason now]
    ∧ (p'.status = PayStatus.refunded ↔ p.amount ≤ refundsTotal p'.refunds) := by
  unfold refundPayment at h
  by_cases hrole : role ≠ "admin"
  · rw [if_pos hrole] at h; cases h
  · rw [if_neg hrole] at h
    dsimp only at h
    by_cases hst : p.status ≠ PayStatus.completed
    · rw [if_pos hst] at h; cases h
    · rw [if_neg hst] at h
      by_cases hamt : jsRefundAmount p amount > p.amount
      · rw [if_pos hamt] at h; cases h
      · rw [if_neg hamt] at h
        by_cases hmv : p.method = "mvola" ∧ p.mvolaTransaction.isSome ∧ ok = false
        · rw [if_pos hmv] at h; cases h
        · rw [if_neg hmv] at h
          have hp' : applyRefund p (jsRefundAmount p amount) reason now = p' := by
            injection h
          subst hp'
          refine ⟨not_not.mp hst, le_of_not_lt hamt, rfl, ?_⟩
          unfold applyRefund
          dsimp only
          by_cases hge : refundsTotal
              (p.refunds ++ [newRefund (jsRefundAmount p amount) reason now]) ≥ p.amount
          · rw [if_pos hge]
            simp [hge]
          · rw [if_neg hge]
            constructor
            · intro hcontra
              rw [not_not.mp hst] at hcontra
              cases hcontra
            · intro hcontra
              exact absurd hcontra hge

/-- Witness for C3 as amended at the first 60-unit refund of the
100-unit completed sample payment. -/
theorem claim3_refund_amended_witness :
    samplePayment.status = PayStatus.completed
    ∧ jsRefundAmount samplePayment (some 60) ≤ samplePayment.amount
    ∧ samplePaymentRefunded60.refunds
        = samplePayment.refunds
            ++ [newRefund (jsRefundAmount samplePayment (some 60)) "damaged batch" 1]
    ∧ (samplePaymentRefunded60.status = PayStatus.refunded ↔
        samplePayment.amount ≤ refundsTotal samplePaymentRefunded60.refunds) :=
  claim3_refund_amended "admin" samplePayment (some 60) "damaged batch" true 1
    samplePaymentRefunded60 refund_sample_step1

lemma createPayment_card_sample :
    createPayment "o1" (some sampleDraftOrder) "c1" 25000 "card" "" "PAY-1" none
      = .ok samplePayment25000 := by
  unfold createPayment
  dsimp only
  rw [if_neg (by decide), if_neg (by decide)]
  simp only [Except.ok.injEq]
  simp [samplePayment25000]
  norm_num

/-- C7: every created payment's processing fee is 2% of the amount for
the mobile-money method and 3% otherwise, the platform fee is 1%, and
the total fees are their sum; the 25000 card scenario yields 750, 250
and 1000. -/
theorem claim7_fees (orderId : String) (o : Order) (clientId : String) (amount : ℚ)
    (method phoneNumber paymentNumber : String) (mvolaResult : Option (String × String))
    (p : Payment)
    (h : createPayment orderId (some o) clientId amount method phoneNumber paymentNumber
          mvolaResult = .ok p) :
    p.fees.processingFee
        = (if method = "mvola" then amount * (2 / 100 : ℚ) else amount * (3 / 100 : ℚ))
    ∧ p.fees.platformFee = amount * (1 / 100 : ℚ)
    ∧ p.fees.totalFees = p.fees.processingFee + p.fees.platformFee
    ∧ p.amount = amount
    ∧ createPayment "o1" (some sampleDraftOrder) "c1" 25000 "card" "" "PAY-1" none
        = .ok samplePayment25000
    ∧ samplePayment25000.fees.processingFee = 750
    ∧ samplePayment25000.fees.platformFee = 250
    ∧ samplePayment25000.fees.totalFees = 1000 := by
  unfold createPayment at h
  dsimp only at h
  by_cases hown : o.clientId ≠ clientId
  · rw [if_pos hown] at h; cases h
  · rw [if_neg hown] at h
    by_cases hm : method = "mvola"
    · rw [if_pos hm] at h
      cases hres : mvolaResult with
      | none => rw [hres] at h; cases h
      | some r =>
        rw [hres] at h
        dsimp only at h
        injection h with hp
        subst hp
        exact ⟨rfl, rfl, rfl, rfl, createPayment_card_sample, rfl, rfl, rfl⟩
    · rw [if_neg hm] at h
      injection h with hp
      subst hp
      exact ⟨rfl, rfl, rfl, rfl, createPayment_card_sample, rfl, rfl, rfl⟩

/-- Witness for C7 at the spec scenario: 25000 via card. -/
theorem claim7_fees_witness :
    samplePayment25000.fees.processingFee
        = (if "card" = "mvola" then (25000 : ℚ) * (2 / 100 : ℚ)
           else (25000 : ℚ) * (3 / 100 : ℚ))
    ∧ samplePayment25000.fees.platformFee = (25000 : ℚ) * (1 / 100 : ℚ)
    ∧ samplePayment25000.fees.totalFees
        = samplePayment25000.fees.processingFee + samplePayment25000.fees.platformFee
    ∧ samplePayment25000.amount = 25000
    ∧ createPayment "o1" (some sampleDraftOrder) "c1" 25000 "card" "" "PAY-1" none
        = .ok samplePayment25000
    ∧ samplePayment25000.fees.processingFee = 750
    ∧ samplePayment25000.fees.platformFee = 250
    ∧ samplePayment25000.fees.totalFees = 1000 :=
  claim7_fees "o1" sampleDraftOrder "c1" 25000 "card" "" "PAY-1" none samplePayment25000
    createPayment_card_sample

lemma calculateTotals_orderNumber (o : Order) :
    o.calculateTotals.orderNumber = o.orderNumber := rfl

/-- C8: a newly created order without a preassigned number receives,
once, a number `PP` + year + 2-digit month + 2-digit day + 4-digit
sequence, where the sequence is one plus the count of orders created in
the `[startOfDay, endOfDay)` window; orders that already carry a number
or are not new keep their number. -/
theorem claim8_order_number (year month day : ℕ) (createdAts : List ℕ)
    (startOfDay endOfDay : ℕ) (o o2 : Order)
    (hnum : o.orderNumber = "")
    (hy1 : 1000 ≤ year) (hy2 : year ≤ 9999)
    (hm2 : month ≤ 12) (hd2 : day ≤ 31)
    (hcount : (createdAts.filter
        (fun t => decide (startOfDay ≤ t ∧ t < endOfDay))).length + 1 ≤ 9999) :
    (Order.save true year month day createdAts startOfDay endOfDay o).orderNumber
        = "PP" ++ natToString year ++ padStart (natToString month) 2 '0'
            ++ padStart (natToString day) 2 '0'
            ++ padStart (natToString ((createdAts.filter
                (fun t => decide (startOfDay ≤ t ∧ t < endOfDay))).length + 1)) 4 '0'
    ∧ (natToString year ++ padStart (natToString month) 2 '0'
        ++ padStart (natToString day) 2 '0').length = 8
    ∧ (padStart (natToString ((createdAts.filter
          (fun t => decide (startOfDay ≤ t ∧ t < endOfDay))).length + 1)) 4 '0').length = 4
    ∧ (o2.orderNumber ≠ "" →
        (Order.save true year month day createdAts startOfDay endOfDay o2).orderNumber
          = o2.orderNumber)
    ∧ (Order.save false year month day createdAts startOfDay endOfDay o2).orderNumber
        = o2.orderNumber := by
  refine ⟨?_, ?_, ?_, ?_, ?_⟩
  · unfold Order.save
    rw [if_pos ⟨rfl, hnum⟩, calculateTotals_orderNumber]
    rfl
  · rw [String.length_append, String.length_append]
    have hy : (natToString year).length = 4 := by
      refine natToString_length_eq year 3 ?_ ?_
      · calc (10 : ℕ) ^ 3 = 1000 := by norm_num
          _ ≤ year := hy1
      · calc year ≤ 9999 := hy2
          _ < 10 ^ 4 := by norm_num
    have hm : (padStart (natToString month) 2 '0').length = 2 := by
      rw [padStart_length]
      have : (natToString month).length ≤ 2 :=
        natToString_length_le month 2 (by norm_num)
          (by calc month ≤ 12 := hm2
                _ < 10 ^ 2 := by norm_num)
      omega
    have hd : (padStart (natToString day) 2 '0').length = 2 := by
      rw [padStart_length]
      have : (natToString day).length ≤ 2 :=
        natToString_length_le day 2 (by norm_num)
          (by calc day ≤ 31 := hd2
                _ < 10 ^ 2 := by norm_num)
      omega
    omega
  · rw [padStart_length]
    have : (natToString ((createdAts.filter
        (fun t => decide (startOfDay ≤ t ∧ t < endOfDay))).length + 1)).length ≤ 4 :=
      natToString_length_le _ 4 (by norm_num) (by omega)
    omega
  · intro hnum2
    unfold Order.save
    rw [if_neg (by simp [hnum2]), calculateTotals_orderNumber]
  · unfold Order.save
    rw [if_neg (by simp), calculateTotals_orderNumber]

/-- Witness for C8 on 2025-03-07 with one existing order inside the
daily window: the generated number is `PP202503070002`. -/
theorem claim8_order_number_witness :
    (Order.save true 2025 3 7 [5, 15, 25] 10 20
        { sampleDraftOrder with orderNumber := "" }).orderNumber
        = "PP" ++ natToString 2025 ++ padStart (natToString 3) 2 '0'
            ++ padStart (natToString 7) 2 '0'
            ++ padStart (natToString (([5, 15, 25].filter
                (fun t => decide (10 ≤ t ∧ t < 20))).length + 1)) 4 '0'
    ∧ (natToString 2025 ++ padStart (natToString 3) 2 '0'
        ++ padStart (natToString 7) 2 '0').length = 8
    ∧ (padStart (natToString (([5, 15, 25].filter
          (fun t => decide (10 ≤ t ∧ t < 20))).length + 1)) 4 '0').length = 4
    ∧ (sampleDraftOrder.orderNumber ≠ "" →
        (Order.save true 2025 3 7 [5, 15, 25] 10 20 sampleDraftOrder).orderNumber
          = sampleDraftOrder.orderNumber)
    ∧ (Order.save false 2025 3 7 [5, 15, 25] 10 20 sampleDraftOrder).orderNumber
        = sampleDraftOrder.orderNumber :=
  claim8_order_number 2025 3 7 [5, 15, 25] 10 20
    { sampleDraftOrder with orderNumber := "" } sampleDraftOrder
    rfl (by norm_num) (by norm_num) (by norm_num) (by norm_num) (by decide)

/-- C9: a validation result is valid exactly when it carries zero
`error`-type issues, and an unsupported extension always produces an
`error` issue and an invalid result. -/
theorem claim9_validation (fileSize : ℚ) (mimetype : String) (meta : ImageMeta)
    (extname : String) :
    ((validateFile fileSize mimetype meta extname).isValid = true ↔
      (validateFile fileSize mimetype meta extname).issues.countP
        (fun issue => issue.type = "error") = 0)
    ∧ (extname ∉ allSupportedFormats →
        (validateFile fileSize mimetype meta extname).isValid = false
        ∧ 0 < (validateFile fileSize mimetype meta extname).issues.countP
            (fun issue => issue.type = "error")) := by
  unfold validateFile
  constructor
  · unfold finalizeValidity
    dsimp only
    simp [List.countP_eq_zero, List.any_eq_false]
  · intro hext
    have hc : allSupportedFormats.contains extname = false := by
      simpa using hext
    unfold formatStep finalizeValidity pushIssue
    rw [if_pos hc]
    dsimp only
    constructor
    · simp [List.any_append, unsupportedFormatIssue]
    · simp [List.countP_append, unsupportedFormatIssue, List.countP_cons]

/-- Witness for C9 on a `.zip` upload: unsupported, hence invalid with
an error issue. -/
theorem claim9_validation_witness :
    (validateFile 10 "application/zip" noImageMeta ".zip").isValid = false
    ∧ 0 < (validateFile 10 "application/zip" noImageMeta ".zip").issues.countP
        (fun issue => issue.type = "error") :=
  (claim9_validation 10 "application/zip" noImageMeta ".zip").2 (by decide)

/-- C10: a refund request on a completed payment whose requested amount
is absent or zero is processed for the full original amount — the two
request shapes produce identical results. -/
theorem claim10_zero_refund (p : Payment) (reason : String) (ok : Bool) (now : ℕ)
    (hst : p.status = PayStatus.completed)
    (hmv : ¬(p.method = "mvola" ∧ p.mvolaTransaction.isSome ∧ ok = false)) :
    refundPayment "admin" (some p) none reason ok now
        = refundPayment "admin" (some p) (some 0) reason ok now
    ∧ refundPayment "admin" (some p) none reason ok now
        = .ok (applyRefund p p.amount reason now)
    ∧ (applyRefund p p.amount reason now).refunds
        = p.refunds ++ [newRefund p.amount reason now] := by
  have h0 : jsRefundAmount p none = p.amount := rfl
  have h1 : jsRefundAmount p (some 0) = p.amount := by simp [jsRefundAmount]
  have hamt0 : ¬(jsRefundAmount p none > p.amount) := by
    rw [h0]; exact lt_irrefl p.amount
  have hamt1 : ¬(jsRefundAmount p (some 0) > p.amount) := by
    rw [h1]; exact lt_irrefl p.amount
  have e0 := refundPayment_ok p none reason ok now hst hamt0 hmv
  have e1 := refundPayment_ok p (some 0) reason ok now hst hamt1 hmv
  refine ⟨?_, ?_, rfl⟩
  · rw [e0, e1, h0, h1]
  · rw [e0, h0]

/-- Witness for C10 on the completed 100-unit card payment. -/
theorem claim10_zero_refund_witness :
    refundPayment "admin" (some samplePayment) none "full refund" true 3
        = refundPayment "admin" (some samplePayment) (some 0) "full refund" true 3
    ∧ refundPayment "admin" (some samplePayment) none "full refund" true 3
        = .ok (applyRefund samplePayment samplePayment.amount "full refund" 3)
    ∧ (applyRefund samplePayment samplePayment.amount "full refund" 3).refunds
        = samplePayment.refunds ++ [newRefund samplePayment.amount "full refund" 3] :=
  claim10_zero_refund samplePayment "full refund" true 3 (by decide) (by decide)

end PrintShop

